import Mathlib

/-
Verification of the job-lifecycle core of src/app.py (vdlp-helper):
the whole-snapshot JSON job store, the job creation handler, the
download worker and its retrieval completion unit, the retention
sweep loop, and the in-place rotation operator.
-/

/-- A job record as stored in database.json by app.py (home handler,
lines 179 to 186): id, url, status, created timestamp (modelled in
seconds), primary artifact path (file), streaming directory (hls),
and the optional error description set on failure. -/
structure Job where
  id : String
  url : String
  status : String
  created : Nat
  file : String
  hls : String
  error : Option String
deriving Repr, DecidableEq

/-- The persisted mapping from id to Job, a Python dict modelled as an
insertion-ordered association list with unique keys. -/
abbrev Db := List (String × Job)

/-- First-match lookup in an association list (Python dict read). -/
def lookupA {β : Type} : List (String × β) → String → Option β
  | [], _ => none
  | e :: rest, k => if e.1 = k then some e.2 else lookupA rest k

/-- Update the value at a key if present, otherwise append at the end
(Python dict item assignment). -/
def setA {β : Type} : List (String × β) → String → β → List (String × β)
  | [], k, v => [(k, v)]
  | e :: rest, k, v => if e.1 = k then (k, v) :: rest else e :: setA rest k v

/-- Apply a function to the value stored at a key, leaving other
entries alone (in-place mutation of one record of the dict). -/
def updateA {β : Type} (l : List (String × β)) (k : String) (f : β → β) :
    List (String × β) :=
  l.map (fun e => if e.1 = k then (e.1, f e.2) else e)

/-- Remove every entry with the given key (Python del db[k]). -/
def eraseA {β : Type} (l : List (String × β)) (k : String) :
    List (String × β) :=
  l.filter (fun e => e.1 ≠ k)

/-- load_db, app.py lines 33 to 37: the snapshot file holds the whole
mapping; an absent snapshot reads as the empty mapping. -/
def loadDb : Option Db → Db
  | none => []
  | some m => m

/-- save_db, app.py lines 40 to 42: json.dump of the whole mapping,
replacing whatever snapshot existed before. -/
def saveDb (m : Db) (_snap : Option Db) : Option Db := some m

/-- The fresh record created by the home POST handler, app.py
lines 179 to 186: status processing, empty file and hls paths. -/
def newJob (id url : String) (now : Nat) : Job :=
  { id := id, url := url, status := "processing", created := now,
    file := "", hls := "", error := none }

/-- The store effect of the home POST handler (job creation), app.py
lines 172 to 196: insert the fresh record into the loaded mapping. -/
def homePost (db : Db) (id url : String) (now : Nat) : Db :=
  setA db id (newJob id url now)

/-- getJob: the read done by the video_page handler, app.py
lines 221 to 228; an unknown id yields none (the Not found page). -/
def getJob (snap : Option Db) (id : String) : Option Job :=
  lookupA (loadDb snap) id

/-- DOWNLOAD_DIR, app.py line 23. -/
def DOWNLOAD_DIR : String := "downloads"

/-- The primary artifact path assigned by download_video, app.py
lines 113 to 114: os.path.join of DOWNLOAD_DIR and id plus .mp4. -/
def videoFilePath (id : String) : String :=
  DOWNLOAD_DIR ++ "/" ++ id ++ ".mp4"

/-- The streaming directory assigned by download_video, app.py
line 115. -/
def videoHlsDir (id : String) : String :=
  DOWNLOAD_DIR ++ "/" ++ id ++ "_hls"

/-- The first store write of download_video, app.py lines 111 to 119:
it loads the store (the stale argument is the mapping it loaded),
assigns the artifact and streaming paths on the record, and saves the
whole mapping back. -/
def downloadVideoInit (stale : Db) (id : String) : Db :=
  updateA stale id
    (fun j => { j with file := videoFilePath id, hls := videoHlsDir id })

/-- The store write of the retrieval completion unit run_download,
app.py lines 134 to 148: it reloads the current snapshot, writes
status ready on success, or status failed plus the error description
on failure, and saves. -/
def runDownload (outcome : Except String Unit) (id : String) (db : Db) : Db :=
  match outcome with
  | Except.ok _ => updateA db id (fun j => { j with status := "ready" })
  | Except.error e =>
      updateA (updateA db id (fun j => { j with status := "failed" })) id
        (fun j => { j with error := some e })

/-- The final store write of download_video, app.py lines 157 to 158:
after the artifact file is observed it sets status processing on its
own local dict, the one loaded at line 111, and saves that whole
stale mapping as the new snapshot. -/
def downloadVideoFinal (stale : Db) (id : String) : Db :=
  updateA stale id (fun j => { j with status := "processing" })

/-- The on-disk state the core manipulates: regular files as a mapping
from path to content (content abstracted as a number), and the
streaming directories as a mapping from directory path to the names of
the files inside it. -/
structure FS where
  files : List (String × Nat)
  dirs : List (String × List String)
deriving Repr, DecidableEq

/-- Content of a regular file, none when the path does not exist. -/
def getFile (fs : FS) (p : String) : Option Nat := lookupA fs.files p

/-- os.path.exists on a regular file path. -/
def fileExists (fs : FS) (p : String) : Bool := (getFile fs p).isSome

/-- Create or overwrite a regular file. -/
def writeFile (fs : FS) (p : String) (c : Nat) : FS :=
  { files := setA fs.files p c, dirs := fs.dirs }

/-- os.remove of a regular file path. -/
def removeFile (fs : FS) (p : String) : FS :=
  { files := eraseA fs.files p, dirs := fs.dirs }

/-- os.path.exists on a directory path. -/
def dirExists (fs : FS) (p : String) : Bool := (lookupA fs.dirs p).isSome

/-- Deleting every file inside a directory and then the directory
itself, app.py lines 66 to 70. -/
def removeDirAll (fs : FS) (p : String) : FS :=
  { files := fs.files, dirs := eraseA fs.dirs p }

/-- os.rename src dst: the content at src moves to dst, replacing any
file previously at dst; a no-op here when src does not exist (the real
call would raise, the caller guards existence). -/
def renameFile (fs : FS) (src dst : String) : FS :=
  match getFile fs src with
  | none => fs
  | some c => { files := setA (eraseA fs.files src) dst c, dirs := fs.dirs }

/-- The retention test of cleanup_loop, app.py line 58: the job age
now minus created exceeds timedelta hours 24, that is 86400 seconds,
strictly. -/
def expired (now : Nat) (j : Job) : Bool :=
  decide (86400 < now - j.created)

/-- The hls-directory deletion of one sweep iteration, app.py
lines 65 to 70: remove the directory and the files inside it when the
recorded path is non-empty and the directory exists. -/
def cleanupDirStep (fs1 : FS) (j : Job) : FS :=
  if j.hls ≠ "" ∧ dirExists fs1 j.hls = true
  then removeDirAll fs1 j.hls else fs1

/-- The per-job file deletions of one sweep iteration, app.py
lines 60 to 70: remove the mp4 if the path is non-empty and exists,
then the hls directory step. -/
def cleanupJobFiles (fs : FS) (j : Job) : FS :=
  cleanupDirStep
    (if j.file ≠ "" ∧ fileExists fs j.file = true
     then removeFile fs j.file else fs) j

/-- One full cycle of cleanup_loop, app.py lines 51 to 76: walk the
loaded mapping in order, delete the files of every expired job and
drop its record, keep everything else; the surviving mapping is the
new snapshot. -/
def cleanupCycle (now : Nat) : Db → FS → Db × FS
  | [], fs => ([], fs)
  | (vid, j) :: rest, fs =>
    if expired now j = true then
      cleanupCycle now rest (cleanupJobFiles fs j)
    else
      ((vid, j) :: (cleanupCycle now rest fs).1, (cleanupCycle now rest fs).2)

/-- Python str.replace with a nonempty pattern, scanning left to
right without overlap, written with a fuel argument equal to the
length of the scanned text so that the recursion is structural. -/
def replaceAux (old new : List Char) : Nat → List Char → List Char
  | _, [] => []
  | 0, s => s
  | fuel + 1, c :: rest =>
    if old.isPrefixOf (c :: rest) then
      new ++ replaceAux old new fuel (List.drop old.length (c :: rest))
    else
      c :: replaceAux old new fuel rest

/-- input_file.replace of app.py line 316, as Python string replace. -/
def strReplace (s old new : String) : String :=
  { data := replaceAux old.data new.data s.data.length s.data }

/-- The output path computed by rotate, app.py line 316. -/
def rotateOutput (input : String) : String :=
  strReplace input ".mp4" "_rotated.mp4"

/-- The transpose dictionary of rotate, app.py lines 318 to 322; a key
outside the three angles has no entry, which in Python raises KeyError
before any file is touched. -/
def transposeMap (angle : String) : Option String :=
  lookupA
    [("90", "transpose=1"),
     ("180", "transpose=2,transpose=2"),
     ("270", "transpose=2")]
    angle

/-- Splitting a transform descriptor at the commas, to read off the
individual transpose steps it composes. -/
def splitCommaList : List Char → List Char → List (List Char)
  | [], acc => [acc.reverse]
  | c :: rest, acc =>
    if c = ',' then acc.reverse :: splitCommaList rest []
    else splitCommaList rest (c :: acc)

/-- The list of single transpose steps of a transform descriptor. -/
def descSteps (s : String) : List String :=
  (splitCommaList s.data []).map (fun l => { data := l })

/-- The failure points of the rotate handler, app.py lines 306 to 339:
abort 404 on an unknown id, the KeyError of the transpose dictionary
on a bad angle, and the unhandled errors of os.remove and os.rename
when the path they act on does not exist. -/
inductive RotErr where
  | notFound
  | invalidAngle
  | removeNoFile
  | renameNoFile
deriving Repr, DecidableEq

/-- The file manipulation of rotate after its checks, app.py
lines 324 to 337: subprocess.run of ffmpeg, whose exit status is
never inspected (the collaborator ff either writes content at the
output path or writes nothing), then os.remove of the input path,
then os.rename of the output path onto the input path. -/
def rotateRun (ff : String → Option Nat → Option Nat) (snap : Option Db)
    (fs : FS) (input output t : String) : Option RotErr × Option Db × FS :=
  let fs1 := match ff t (getFile fs input) with
             | none => fs
             | some c => writeFile fs output c
  if fileExists fs1 input = true then
    if fileExists (removeFile fs1 input) output = true then
      (none, snap, renameFile (removeFile fs1 input) output input)
    else
      (some RotErr.renameNoFile, snap, removeFile fs1 input)
  else
    (some RotErr.removeNoFile, snap, fs1)

/-- The rotate handler, app.py lines 306 to 339: load the store, 404
on an unknown id, compute input and output paths, look the angle up in
the transpose dictionary, then run the file replacement; the store
snapshot is never written (no save_db call anywhere in rotate). -/
def rotate (ff : String → Option Nat → Option Nat) (snap : Option Db)
    (fs : FS) (id angle : String) : Option RotErr × Option Db × FS :=
  match lookupA (loadDb snap) id with
  | none => (some RotErr.notFound, snap, fs)
  | some v =>
    match transposeMap angle with
    | none => (some RotErr.invalidAngle, snap, fs)
    | some t => rotateRun ff snap fs v.file (rotateOutput v.file) t

/-- The store-writing operations of the system, each carrying the data
it acts with: job creation, the two writes of download_video (each
saving the stale mapping the worker holds), the retrieval completion
write (acting on the current snapshot it reloads), the packaging
launch and rotation (which never write the store), and one sweep
cycle. -/
inductive StoreOp where
  | opHomePost (id url : String) (now : Nat)
  | workerInit (stale : Db) (id : String)
  | retrievalDone (outcome : Except String Unit) (id : String)
  | workerFinal (stale : Db) (id : String)
  | packagingLaunch (id : String)
  | rotateCall (id angle : String)
  | sweep (now : Nat) (fs : FS)

/-- The new store snapshot produced by one operation acting on the
current snapshot db. The worker writes replace the snapshot with the
stale mapping they carry, exactly as save_db of a dict loaded
earlier does. -/
def applyOp (db : Db) : StoreOp → Db
  | StoreOp.opHomePost id url now => homePost db id url now
  | StoreOp.workerInit stale id => downloadVideoInit stale id
  | StoreOp.retrievalDone outcome id => runDownload outcome id db
  | StoreOp.workerFinal stale id => downloadVideoFinal stale id
  | StoreOp.packagingLaunch _ => db
  | StoreOp.rotateCall _ _ => db
  | StoreOp.sweep now fs => (cleanupCycle now db fs).1

/-- A processing job as the download worker holds it in its stale
local dict after assigning paths. -/
def jobProcA : Job :=
  { id := "a", url := "http://u", status := "processing", created := 0,
    file := "downloads/a.mp4", hls := "downloads/a_hls", error := none }

/-- The same job after the retrieval unit recorded success. -/
def jobReadyA : Job := { jobProcA with status := "ready" }

/-- The stale mapping held by the download worker. -/
def staleDbA : Db := [("a", jobProcA)]

/-- The current snapshot after the retrieval unit wrote ready. -/
def snapReadyA : Db := [("a", jobReadyA)]

/-- An old job for the sweep witness, created at time 0. -/
def jOldW : Job :=
  { id := "a", url := "u", status := "processing", created := 0,
    file := "downloads/a.mp4", hls := "downloads/a_hls", error := none }

/-- A young job for the sweep witness, created at time 90000. -/
def jNewW : Job :=
  { id := "b", url := "u2", status := "ready", created := 90000,
    file := "downloads/b.mp4", hls := "downloads/b_hls", error := none }

/-- A two-job store for the sweep witness. -/
def dbW : Db := [("a", jOldW), ("b", jNewW)]

/-- On-disk state for the sweep witness: both artifacts and one hls
directory exist. -/
def fsW : FS :=
  { files := [("downloads/a.mp4", 3), ("downloads/b.mp4", 4)],
    dirs := [("downloads/a_hls", ["playlist.m3u8", "seg0.ts"])] }

/-- A transcode collaborator that copies its input unchanged. -/
def ffIdW : String → Option Nat → Option Nat := fun _ c => c

/-- A transcode collaborator that writes a transformed content. -/
def ffSuccW : String → Option Nat → Option Nat :=
  fun _ c => c.map (fun n => n + 1)

/-- A transcode collaborator that fails and writes nothing. -/
def ffNoneW : String → Option Nat → Option Nat := fun _ _ => none

/-- A ready job whose artifact exists, for the rotation witness. -/
def jobReadyW : Job := { jOldW with status := "ready" }

/-- On-disk state for the rotation witness. -/
def fs8W : FS := { files := [("downloads/a.mp4", 7)], dirs := [] }

/-- A freshly created job whose paths were never assigned. -/
def jobEmptyW : Job :=
  { id := "a", url := "u", status := "processing", created := 0,
    file := "", hls := "", error := none }

/-- Looking a key up right after setting it yields the new value. -/
theorem lookupA_setA_self {β : Type} (l : List (String × β)) (k : String) (v : β) :
    lookupA (setA l k v) k = some v := by
  induction l with
  | nil => simp [setA, lookupA]
  | cons e rest ih =>
    by_cases h : e.1 = k
    · simp [setA, h, lookupA]
    · simp [setA, h, lookupA, ih]

/-- Setting one key leaves lookups of other keys unchanged. -/
theorem lookupA_setA_ne {β : Type} (l : List (String × β)) (k q : String) (v : β)
    (hqk : q ≠ k) : lookupA (setA l k v) q = lookupA l q := by
  induction l with
  | nil => simp [setA, lookupA, Ne.symm hqk]
  | cons e rest ih =>
    by_cases h : e.1 = k
    · simp [setA, h, lookupA, Ne.symm hqk]
    · simp [setA, h, lookupA, ih]

/-- Updating the value at a present key is seen by a lookup of it. -/
theorem lookupA_updateA_self {β : Type} (l : List (String × β)) (k : String)
    (f : β → β) (v : β) (h : lookupA l k = some v) :
    lookupA (updateA l k f) k = some (f v) := by
  induction l with
  | nil => simp [lookupA] at h
  | cons e rest ih =>
    by_cases he : e.1 = k
    · simp [lookupA, he] at h
      simp [updateA, lookupA, he, h]
    · simp [lookupA, he] at h
      simpa [updateA, lookupA, he] using ih h

/-- Updating one key leaves lookups of other keys unchanged. -/
theorem lookupA_updateA_ne {β : Type} (l : List (String × β)) (k q : String)
    (f : β → β) (hqk : q ≠ k) : lookupA (updateA l k f) q = lookupA l q := by
  induction l with
  | nil => simp [updateA, lookupA]
  | cons e rest ih =>
    by_cases he : e.1 = k
    · simp [updateA, lookupA, he, Ne.symm hqk]
      simpa [updateA] using ih
    · by_cases hq : e.1 = q
      · simp [updateA, lookupA, he, hq, hqk]
      · simp [updateA, lookupA, he, hq]
        simpa [updateA] using ih

/-- A key is absent after erasing it. -/
theorem lookupA_eraseA_self {β : Type} (l : List (String × β)) (k : String) :
    lookupA (eraseA l k) k = none := by
  induction l with
  | nil => simp [eraseA, lookupA]
  | cons e rest ih =>
    by_cases he : e.1 = k
    · simpa [eraseA, List.filter, he] using ih
    · simpa [eraseA, List.filter, lookupA, he] using ih

/-- Erasing one key leaves lookups of other keys unchanged. -/
theorem lookupA_eraseA_ne {β : Type} (l : List (String × β)) (k q : String)
    (hqk : q ≠ k) : lookupA (eraseA l k) q = lookupA l q := by
  induction l with
  | nil => simp [eraseA, lookupA]
  | cons e rest ih =>
    by_cases he : e.1 = k
    · simpa [eraseA, List.filter, he, lookupA, Ne.symm hqk] using ih
    · by_cases hq : e.1 = q
      · simp [eraseA, List.filter, he, lookupA, hq, hqk]
      · simpa [eraseA, List.filter, he, lookupA, hq] using ih

/-- An absent key stays absent after erasing any key. -/
theorem lookupA_eraseA_none {β : Type} (l : List (String × β)) (k q : String)
    (h : lookupA l q = none) : lookupA (eraseA l k) q = none := by
  by_cases hq : q = k
  · subst hq; exact lookupA_eraseA_self l q
  · rw [lookupA_eraseA_ne l k q hq]; exact h

/-- A key outside the key list of the mapping looks up to none. -/
theorem lookupA_none_of_not_mem {β : Type} (l : List (String × β)) (k : String)
    (h : k ∉ l.map Prod.fst) : lookupA l k = none := by
  induction l with
  | nil => simp [lookupA]
  | cons e rest ih =>
    simp only [List.map_cons, List.mem_cons] at h
    push_neg at h
    have hne : ¬ e.1 = k := fun hh => h.1 hh.symm
    simp [lookupA, hne, ih h.2]

/-- The directory step never touches regular files. -/
theorem cleanupDirStep_files (fs1 : FS) (j : Job) :
    (cleanupDirStep fs1 j).files = fs1.files := by
  unfold cleanupDirStep
  split <;> rfl


/-- A file path fails the existence test exactly when it has no
content. -/
theorem fileExists_false_iff (fs : FS) (p : String) :
    fileExists fs p = false ↔ getFile fs p = none := by
  unfold fileExists
  cases getFile fs p <;> simp

/-- A directory path fails the existence test exactly when it is not
recorded. -/
theorem dirExists_false_iff (fs : FS) (p : String) :
    dirExists fs p = false ↔ lookupA fs.dirs p = none := by
  unfold dirExists
  cases lookupA fs.dirs p <;> simp

/-- The per-job deletions leave the directory map unchanged or erase
exactly the hls entry of the job. -/
theorem cleanupJobFiles_dirs_cases (fs : FS) (j : Job) :
    (cleanupJobFiles fs j).dirs = fs.dirs ∨
    (cleanupJobFiles fs j).dirs = eraseA fs.dirs j.hls := by
  unfold cleanupJobFiles cleanupDirStep
  split <;> split <;> simp [removeDirAll, removeFile]

/-- The per-job deletions leave the file map unchanged or erase
exactly the mp4 entry of the job. -/
theorem cleanupJobFiles_files_cases (fs : FS) (j : Job) :
    (cleanupJobFiles fs j).files = fs.files ∨
    (cleanupJobFiles fs j).files = eraseA fs.files j.file := by
  unfold cleanupJobFiles cleanupDirStep
  split <;> split <;> simp [removeDirAll, removeFile]

/-- A non-existing file path still does not exist after the per-job
deletions. -/
theorem cleanupJobFiles_files_sub (fs : FS) (j : Job) (p : String)
    (h : fileExists fs p = false) :
    fileExists (cleanupJobFiles fs j) p = false := by
  have hnone : getFile fs p = none := (fileExists_false_iff fs p).mp h
  rw [fileExists_false_iff]
  unfold getFile at hnone ⊢
  rcases cleanupJobFiles_files_cases fs j with hc | hc <;> rw [hc]
  · exact hnone
  · exact lookupA_eraseA_none _ _ _ hnone

/-- A non-existing directory path still does not exist after the
per-job deletions. -/
theorem cleanupJobFiles_dirs_sub (fs : FS) (j : Job) (p : String)
    (h : dirExists fs p = false) :
    dirExists (cleanupJobFiles fs j) p = false := by
  have hnone : lookupA fs.dirs p = none := (dirExists_false_iff fs p).mp h
  rw [dirExists_false_iff]
  rcases cleanupJobFiles_dirs_cases fs j with hc | hc <;> rw [hc]
  · exact hnone
  · exact lookupA_eraseA_none _ _ _ hnone

/-- After the per-job deletions, the recorded mp4 path of the job does
not exist (when non-empty). -/
theorem cleanupJobFiles_file_gone (fs : FS) (j : Job) (h : j.file ≠ "") :
    fileExists (cleanupJobFiles fs j) j.file = false := by
  rw [fileExists_false_iff]
  unfold getFile cleanupJobFiles
  rw [cleanupDirStep_files]
  split
  · simp only [removeFile]
    exact lookupA_eraseA_self _ _
  · rename_i hc
    cases hfe : fileExists fs j.file with
    | false => exact (fileExists_false_iff fs j.file).mp hfe
    | true => exact absurd ⟨h, hfe⟩ hc

/-- After the per-job deletions, the recorded hls directory of the job
does not exist (when non-empty). -/
theorem cleanupJobFiles_dir_gone (fs : FS) (j : Job) (h : j.hls ≠ "") :
    dirExists (cleanupJobFiles fs j) j.hls = false := by
  unfold cleanupJobFiles
  generalize (if j.file ≠ "" ∧ fileExists fs j.file = true
              then removeFile fs j.file else fs) = fs1
  unfold cleanupDirStep
  split
  · rw [dirExists_false_iff]
    simp only [removeDirAll]
    exact lookupA_eraseA_self _ _
  · rename_i hc
    cases hd : dirExists fs1 j.hls with
    | false => rfl
    | true => exact absurd ⟨h, hd⟩ hc

/-- A non-existing file path still does not exist after a whole sweep
cycle (the sweep only deletes files). -/
theorem cleanup_fileExists_sub (now : Nat) (p : String) :
    ∀ (db : Db) (fs : FS), fileExists fs p = false →
      fileExists (cleanupCycle now db fs).2 p = false := by
  intro db
  induction db with
  | nil => intro fs h; simpa [cleanupCycle] using h
  | cons e rest ih =>
    intro fs h
    obtain ⟨vid, j⟩ := e
    by_cases hx : expired now j = true
    · have hred : (cleanupCycle now ((vid, j) :: rest) fs).2 =
          (cleanupCycle now rest (cleanupJobFiles fs j)).2 := by
        simp [cleanupCycle, hx]
      rw [hred]
      exact ih _ (cleanupJobFiles_files_sub fs j p h)
    · have hred : (cleanupCycle now ((vid, j) :: rest) fs).2 =
          (cleanupCycle now rest fs).2 := by
        simp [cleanupCycle, hx]
      rw [hred]
      exact ih _ h

/-- A non-existing directory path still does not exist after a whole
sweep cycle. -/
theorem cleanup_dirExists_sub (now : Nat) (p : String) :
    ∀ (db : Db) (fs : FS), dirExists fs p = false →
      dirExists (cleanupCycle now db fs).2 p = false := by
  intro db
  induction db with
  | nil => intro fs h; simpa [cleanupCycle] using h
  | cons e rest ih =>
    intro fs h
    obtain ⟨vid, j⟩ := e
    by_cases hx : expired now j = true
    · have hred : (cleanupCycle now ((vid, j) :: rest) fs).2 =
          (cleanupCycle now rest (cleanupJobFiles fs j)).2 := by
        simp [cleanupCycle, hx]
      rw [hred]
      exact ih _ (cleanupJobFiles_dirs_sub fs j p h)
    · have hred : (cleanupCycle now ((vid, j) :: rest) fs).2 =
          (cleanupCycle now rest fs).2 := by
        simp [cleanupCycle, hx]
      rw [hred]
      exact ih _ h

/-- An id absent from the mapping is still absent after a sweep cycle
(the sweep never adds records). -/
theorem cleanup_lookup_none (now : Nat) (vid : String) :
    ∀ (db : Db) (fs : FS), lookupA db vid = none →
      lookupA (cleanupCycle now db fs).1 vid = none := by
  intro db
  induction db with
  | nil => intro fs _; simp [cleanupCycle, lookupA]
  | cons e rest ih =>
    intro fs h
    obtain ⟨k, j⟩ := e
    by_cases hk : k = vid
    · simp [lookupA, hk] at h
    · have h' : lookupA rest vid = none := by simpa [lookupA, hk] using h
      by_cases hx : expired now j = true
      · have hred : (cleanupCycle now ((k, j) :: rest) fs).1 =
            (cleanupCycle now rest (cleanupJobFiles fs j)).1 := by
          simp [cleanupCycle, hx]
        rw [hred]
        exact ih _ h'
      · have hred : (cleanupCycle now ((k, j) :: rest) fs).1 =
            (k, j) :: (cleanupCycle now rest fs).1 := by
          simp [cleanupCycle, hx]
        rw [hred]
        simpa [lookupA, hk] using ih fs h'

/-- The heart of the retention sweep: with unique keys, a job strictly
older than the horizon is dropped from the store and its mp4 and hls
paths no longer exist afterwards, while a job at or under the horizon
keeps its exact record. -/
theorem cleanup_main (now : Nat) :
    ∀ (db : Db) (fs : FS) (vid : String) (j : Job),
      (db.map Prod.fst).Nodup → lookupA db vid = some j →
      (expired now j = true →
          lookupA (cleanupCycle now db fs).1 vid = none ∧
          (j.file ≠ "" → fileExists (cleanupCycle now db fs).2 j.file = false) ∧
          (j.hls ≠ "" → dirExists (cleanupCycle now db fs).2 j.hls = false)) ∧
      (expired now j = false → lookupA (cleanupCycle now db fs).1 vid = some j) := by
  intro db
  induction db with
  | nil => intro fs vid j _ h; simp [lookupA] at h
  | cons e rest ih =>
    intro fs vid j hnd h
    obtain ⟨k, j0⟩ := e
    have hnd0 : (k :: rest.map Prod.fst).Nodup := by simpa using hnd
    have hknotin : k ∉ rest.map Prod.fst := (List.nodup_cons.mp hnd0).1
    have hnd1 : (rest.map Prod.fst).Nodup := (List.nodup_cons.mp hnd0).2
    by_cases hk : k = vid
    · subst hk
      have hj : j0 = j := by simpa [lookupA] using h
      subst hj
      by_cases hx : expired now j0 = true
      · have hred1 : (cleanupCycle now ((k, j0) :: rest) fs).1 =
            (cleanupCycle now rest (cleanupJobFiles fs j0)).1 := by
          simp [cleanupCycle, hx]
        have hred2 : (cleanupCycle now ((k, j0) :: rest) fs).2 =
            (cleanupCycle now rest (cleanupJobFiles fs j0)).2 := by
          simp [cleanupCycle, hx]
        constructor
        · intro _
          refine ⟨?_, ?_, ?_⟩
          · rw [hred1]
            exact cleanup_lookup_none now k rest _
              (lookupA_none_of_not_mem rest k hknotin)
          · intro hf
            rw [hred2]
            exact cleanup_fileExists_sub now j0.file rest _
              (cleanupJobFiles_file_gone fs j0 hf)
          · intro hd
            rw [hred2]
            exact cleanup_dirExists_sub now j0.hls rest _
              (cleanupJobFiles_dir_gone fs j0 hd)
        · intro hx2
          rw [hx] at hx2
          cases hx2
      · have hred1 : (cleanupCycle now ((k, j0) :: rest) fs).1 =
            (k, j0) :: (cleanupCycle now rest fs).1 := by
          simp [cleanupCycle, hx]
        constructor
        · intro hx2; exact absurd hx2 hx
        · intro _
          rw [hred1]
          simp [lookupA]
    · have h' : lookupA rest vid = some j := by simpa [lookupA, hk] using h
      by_cases hx0 : expired now j0 = true
      · have hred1 : (cleanupCycle now ((k, j0) :: rest) fs).1 =
            (cleanupCycle now rest (cleanupJobFiles fs j0)).1 := by
          simp [cleanupCycle, hx0]
        have hred2 : (cleanupCycle now ((k, j0) :: rest) fs).2 =
            (cleanupCycle now rest (cleanupJobFiles fs j0)).2 := by
          simp [cleanupCycle, hx0]
        have hrec := ih (cleanupJobFiles fs j0) vid j hnd1 h'
        rw [hred1, hred2]
        exact hrec
      · have hred1 : (cleanupCycle now ((k, j0) :: rest) fs).1 =
            (k, j0) :: (cleanupCycle now rest fs).1 := by
          simp [cleanupCycle, hx0]
        have hred2 : (cleanupCycle now ((k, j0) :: rest) fs).2 =
            (cleanupCycle now rest fs).2 := by
          simp [cleanupCycle, hx0]
        have hrec := ih fs vid j hnd1 h'
        constructor
        · intro hx
          refine ⟨?_, ?_, ?_⟩
          · rw [hred1]
            simpa [lookupA, hk] using (hrec.1 hx).1
          · intro hf
            rw [hred2]
            exact (hrec.1 hx).2.1 hf
          · intro hd
            rw [hred2]
            exact (hrec.1 hx).2.2 hd
        · intro hx
          rw [hred1]
          simpa [lookupA, hk] using hrec.2 hx

/-- Claim C3: save_db persists the full mapping, replacing any prior
snapshot, so a load right after a save yields exactly the saved
mapping, and a second save wins wholesale regardless of what the first
one wrote (last-writer-wins at whole-snapshot granularity, discarding
the other writers changes). -/
theorem C3_snapshot_replace (m m2 : Db) (s : Option Db) :
    loadDb (saveDb m s) = m ∧ saveDb m2 (saveDb m s) = saveDb m2 s :=
  ⟨rfl, rfl⟩

/-- Claim C4: after one cycle of cleanup_loop, a job strictly older
than 24 hours (86400 seconds) is removed from the store regardless of
status, its mp4 file no longer exists and its hls directory no longer
exists, while a job aged 24 hours or less keeps its exact record; the
expiry test is exactly the strict 24 hour comparison. -/
theorem C4_retention_sweep (now : Nat) (db : Db) (fs : FS) (vid : String)
    (j : Job) (hnd : (db.map Prod.fst).Nodup) (h : lookupA db vid = some j) :
    (expired now j = true ↔ j.created + 86400 < now) ∧
    (expired now j = true →
        lookupA (cleanupCycle now db fs).1 vid = none ∧
        (j.file ≠ "" → fileExists (cleanupCycle now db fs).2 j.file = false) ∧
        (j.hls ≠ "" → dirExists (cleanupCycle now db fs).2 j.hls = false)) ∧
    (expired now j = false → lookupA (cleanupCycle now db fs).1 vid = some j) := by
  refine ⟨?_, (cleanup_main now db fs vid j hnd h).1,
    (cleanup_main now db fs vid j hnd h).2⟩
  simp only [expired, decide_eq_true_eq]
  omega

/-- Witness for C4 at a concrete two-job store: the job created at
time 0 is swept at time 100000 together with its files, the job
created at time 90000 survives untouched. -/
theorem C4_retention_sweep_witness :
    lookupA (cleanupCycle 100000 dbW fsW).1 "a" = none ∧
    fileExists (cleanupCycle 100000 dbW fsW).2 "downloads/a.mp4" = false ∧
    dirExists (cleanupCycle 100000 dbW fsW).2 "downloads/a_hls" = false ∧
    lookupA (cleanupCycle 100000 dbW fsW).1 "b" = some jNewW := by
  have ha := C4_retention_sweep 100000 dbW fsW "a" jOldW (by decide) (by decide)
  have hb := C4_retention_sweep 100000 dbW fsW "b" jNewW (by decide) (by decide)
  exact ⟨(ha.2.1 (by decide)).1, (ha.2.1 (by decide)).2.1 (by decide),
    (ha.2.1 (by decide)).2.2 (by decide), hb.2.2 (by decide)⟩

/-- Claim C9: the transpose dictionary maps 90 and 270 to single
transpose descriptors in the two opposite senses (distinct single
steps), and maps 180 to the very descriptor of 270 repeated twice,
not to a third distinct transform. -/
theorem C9_transpose_descriptors :
    transposeMap "90" = some "transpose=1" ∧
    transposeMap "270" = some "transpose=2" ∧
    transposeMap "180" = some "transpose=2,transpose=2" ∧
    descSteps "transpose=1" = ["transpose=1"] ∧
    descSteps "transpose=2" = ["transpose=2"] ∧
    descSteps "transpose=2,transpose=2" = ["transpose=2", "transpose=2"] ∧
    ("transpose=1" : String) ≠ "transpose=2" := by
  refine ⟨by decide, by decide, by decide, by decide, by decide, by decide, by decide⟩

/-- Counterexample to claim C2: at the end of the creation call (the
home POST handler saves and returns), the stored record has status
processing but its artifact and streaming paths are the EMPTY string,
not non-empty assigned locations. -/
theorem C2_creation_record_counterexample :
    getJob (saveDb (homePost (loadDb none) "a" "http://u" 5) none) "a" =
      some (newJob "a" "http://u" 5) ∧
    (newJob "a" "http://u" 5).status = "processing" ∧
    (newJob "a" "http://u" 5).file = "" ∧
    (newJob "a" "http://u" 5).hls = "" := by
  refine ⟨by decide, by decide, by decide, by decide⟩

/-- Claim C2 as amended: by the end of the creation call the store
contains the new record with status Processing and EMPTY artifact and
streaming paths; the non-empty paths are assigned only by the first
store write of download_video, which runs after the creation call
returned. -/
theorem C2_creation_record_amended (snap : Option Db) (id url : String)
    (now : Nat) :
    getJob (saveDb (homePost (loadDb snap) id url now) snap) id =
      some (newJob id url now) ∧
    (newJob id url now).status = "processing" ∧
    (newJob id url now).file = "" ∧
    (newJob id url now).hls = "" ∧
    lookupA (downloadVideoInit (homePost (loadDb snap) id url now) id) id =
      some { newJob id url now with
             file := videoFilePath id, hls := videoHlsDir id } ∧
    videoFilePath id ≠ "" ∧
    videoHlsDir id ≠ "" := by
  refine ⟨?_, rfl, rfl, rfl, ?_, ?_, ?_⟩
  · show lookupA (homePost (loadDb snap) id url now) id = some (newJob id url now)
    exact lookupA_setA_self _ _ _
  · exact lookupA_updateA_self _ _ _ _ (lookupA_setA_self _ _ _)
  · intro hcon
    have hlen := congrArg String.length hcon
    simp only [videoFilePath] at hlen
    rw [String.length_append] at hlen
    have h4 : (".mp4" : String).length = 4 := rfl
    have h0 : ("" : String).length = 0 := rfl
    omega
  · intro hcon
    have hlen := congrArg String.length hcon
    simp only [videoHlsDir] at hlen
    rw [String.length_append] at hlen
    have h4 : ("_hls" : String).length = 4 := rfl
    have h0 : ("" : String).length = 0 := rfl
    omega

/-- Claim C5: the retrieval completion unit run_download writes status
ready on success, and on an error with description e writes status
failed with the errorDetail field set to exactly e (non-empty whenever
the description is), all other fields of the record untouched; every
outcome it writes lands the status in ready or failed. -/
theorem C5_retrieval_outcomes (db : Db) (id e : String) (j : Job)
    (h : lookupA db id = some j) :
    lookupA (runDownload (Except.ok ()) id db) id =
      some { j with status := "ready" } ∧
    lookupA (runDownload (Except.error e) id db) id =
      some { j with status := "failed", error := some e } ∧
    (e ≠ "" → ∃ d : String, d ≠ "" ∧
        (lookupA (runDownload (Except.error e) id db) id).map Job.error =
          some (some d)) ∧
    (∀ o : Except String Unit,
        (lookupA (runDownload o id db) id).map Job.status = some "ready" ∨
        (lookupA (runDownload o id db) id).map Job.status = some "failed") := by
  have hok : lookupA (runDownload (Except.ok ()) id db) id =
      some { j with status := "ready" } := by
    show lookupA (updateA db id (fun j0 => { j0 with status := "ready" })) id =
      some { j with status := "ready" }
    exact lookupA_updateA_self _ _ _ _ h
  have herrAll : ∀ e2 : String,
      lookupA (runDownload (Except.error e2) id db) id =
        some { j with status := "failed", error := some e2 } := by
    intro e2
    show lookupA (updateA (updateA db id
        (fun j0 => { j0 with status := "failed" })) id
        (fun j0 => { j0 with error := some e2 })) id =
      some { j with status := "failed", error := some e2 }
    exact lookupA_updateA_self _ _ _ _ (lookupA_updateA_self _ _ _ _ h)
  refine ⟨hok, herrAll e, ?_, ?_⟩
  · intro he
    exact ⟨e, he, by rw [herrAll e]; rfl⟩
  · intro o
    match o with
    | Except.ok _ => left; rw [hok]; rfl
    | Except.error e2 =>
        right
        rw [herrAll e2]
        rfl

/-- Witness for C5 at a concrete store: success flips the processing
job to ready, failure to failed with the error recorded. -/
theorem C5_retrieval_outcomes_witness :
    lookupA (runDownload (Except.ok ()) "a" staleDbA) "a" =
      some { jobProcA with status := "ready" } ∧
    lookupA (runDownload (Except.error "boom") "a" staleDbA) "a" =
      some { jobProcA with status := "failed", error := some "boom" } := by
  have hc := C5_retrieval_outcomes staleDbA "a" "boom" jobProcA (by decide)
  exact ⟨hc.1, hc.2.1⟩

/-- Counterexample to claim C1: with the current snapshot holding the
job at status ready (written by the retrieval unit), the final write
of the fetch worker (download_video step 3) saves its stale mapping
with status processing, so the job leaves the ready status without
being deleted. -/
theorem C1_terminal_status_counterexample :
    (lookupA snapReadyA "a").map Job.status = some "ready" ∧
    (lookupA (applyOp snapReadyA (StoreOp.workerFinal staleDbA "a")) "a").map
      Job.status = some "processing" ∧
    ("processing" : String) ≠ "ready" := by
  refine ⟨by decide, by decide, by decide⟩

/-- Claim C1 as amended: rotation and the packaging launch never write
the store, job creation does not touch other ids, and the sweep either
deletes a record or keeps it identical (so those operations never move
a job out of ready or failed); but the final write of the fetch worker
unconditionally saves its stale mapping with status processing for the
job, overwriting any ready or failed status recorded in between by the
retrieval unit. -/
theorem C1_terminal_status_amended :
    (∀ (db : Db) (id angle : String),
        applyOp db (StoreOp.rotateCall id angle) = db) ∧
    (∀ (db : Db) (id : String),
        applyOp db (StoreOp.packagingLaunch id) = db) ∧
    (∀ (db : Db) (id url vid : String) (now : Nat), vid ≠ id →
        lookupA (applyOp db (StoreOp.opHomePost id url now)) vid =
          lookupA db vid) ∧
    (∀ (db : Db) (now : Nat) (fs : FS) (vid : String),
        (db.map Prod.fst).Nodup →
        lookupA (applyOp db (StoreOp.sweep now fs)) vid = none ∨
        lookupA (applyOp db (StoreOp.sweep now fs)) vid = lookupA db vid) ∧
    (∀ (db stale : Db) (id : String) (j : Job),
        lookupA stale id = some j →
        (lookupA (applyOp db (StoreOp.workerFinal stale id)) id).map
          Job.status = some "processing") := by
  refine ⟨fun _ _ _ => rfl, fun _ _ => rfl, ?_, ?_, ?_⟩
  · intro db id url vid now hne
    exact lookupA_setA_ne _ _ _ _ hne
  · intro db now fs vid hnd
    cases hl : lookupA db vid with
    | none =>
        left
        exact cleanup_lookup_none now vid db fs hl
    | some j =>
        by_cases hx : expired now j = true
        · left
          exact ((cleanup_main now db fs vid j hnd hl).1 hx).1
        · right
          refine (cleanup_main now db fs vid j hnd hl).2 ?_
          cases hx2 : expired now j with
          | false => rfl
          | true => exact absurd hx2 hx
  · intro db stale id j hj
    have := lookupA_updateA_self stale id
      (fun j0 => { j0 with status := "processing" }) j hj
    show (lookupA (downloadVideoFinal stale id) id).map Job.status =
      some "processing"
    rw [downloadVideoFinal, this]
    rfl

/-- Witness for the amended C1: the concrete stale write lands status
processing regardless of the ready snapshot. -/
theorem C1_terminal_status_amended_witness :
    (lookupA (applyOp snapReadyA (StoreOp.workerFinal staleDbA "a")) "a").map
      Job.status = some "processing" :=
  C1_terminal_status_amended.2.2.2.2 snapReadyA staleDbA "a" jobProcA (by decide)

/-- An angle other than the three literal keys has no entry in the
transpose dictionary. -/
theorem transposeMap_eq_none (angle : String) (h90 : angle ≠ "90")
    (h180 : angle ≠ "180") (h270 : angle ≠ "270") :
    transposeMap angle = none := by
  have n1 : ("90" : String) ≠ angle := Ne.symm h90
  have n2 : ("180" : String) ≠ angle := Ne.symm h180
  have n3 : ("270" : String) ≠ angle := Ne.symm h270
  simp [transposeMap, lookupA, n1, n2, n3]

/-- Claim C6: for a job present in the store, rotate with an angle
outside 90, 180, 270 fails synchronously with the invalid-angle error
(the KeyError of the transpose dictionary), and neither the snapshot
nor any file is modified. -/
theorem C6_invalid_angle (ff : String → Option Nat → Option Nat)
    (snap : Option Db) (fs : FS) (id angle : String) (v : Job)
    (h1 : lookupA (loadDb snap) id = some v)
    (h2 : angle ≠ "90" ∧ angle ≠ "180" ∧ angle ≠ "270") :
    transposeMap angle = none ∧
    rotate ff snap fs id angle = (some RotErr.invalidAngle, snap, fs) := by
  have htm := transposeMap_eq_none angle h2.1 h2.2.1 h2.2.2
  refine ⟨htm, ?_⟩
  simp [rotate, h1, htm]

/-- Witness for C6 at a concrete store and the angle 45. -/
theorem C6_invalid_angle_witness :
    rotate ffIdW (some snapReadyA) fsW "a" "45" =
      (some RotErr.invalidAngle, some snapReadyA, fsW) :=
  (C6_invalid_angle ffIdW (some snapReadyA) fsW "a" "45" jobReadyA
    (by decide) (by decide)).2

/-- Claim C7: for an id absent from the store, rotate fails
synchronously with the not-found error and returns the snapshot and
the file system untouched, and getJob yields no record (the Not found
response); neither operation saves the store. -/
theorem C7_not_found (ff : String → Option Nat → Option Nat)
    (snap : Option Db) (fs : FS) (id angle : String)
    (h : getJob snap id = none) :
    rotate ff snap fs id angle = (some RotErr.notFound, snap, fs) ∧
    getJob snap id = none := by
  have h2 : lookupA (loadDb snap) id = none := h
  exact ⟨by simp [rotate, h2], h⟩

/-- Witness for C7 on the empty snapshot. -/
theorem C7_not_found_witness :
    rotate ffIdW none fsW "z" "90" = (some RotErr.notFound, none, fsW) :=
  (C7_not_found ffIdW none fsW "z" "90" (by decide)).1

/-- Claim C10: rotate checks nothing but the presence of the id. On a
job whose artifact path was never assigned (empty string, status still
Processing), it proceeds: the computed output path is also the empty
string, the failed transcode is not detected (its exit status is never
inspected), and the call dies at the unhandled os.remove of the empty
input path; the behaviour depends only on the file field of the
record, never on its status. -/
theorem C10_rotate_no_status_guard (ff : String → Option Nat → Option Nat)
    (snap : Option Db) (fs : FS) (id angle t : String) (v : Job)
    (hv : lookupA (loadDb snap) id = some v)
    (hfile : v.file = "")
    (ht : transposeMap angle = some t)
    (hempty : getFile fs "" = none)
    (hffnone : ff t none = none) :
    rotateOutput "" = "" ∧
    rotate ff snap fs id angle = (some RotErr.removeNoFile, snap, fs) ∧
    (∀ (snap2 : Option Db) (v2 : Job),
        lookupA (loadDb snap2) id = some v2 → v2.file = "" →
        rotate ff snap2 fs id angle = (some RotErr.removeNoFile, snap2, fs)) := by
  have key : ∀ (snap2 : Option Db) (v2 : Job),
      lookupA (loadDb snap2) id = some v2 → v2.file = "" →
      rotate ff snap2 fs id angle = (some RotErr.removeNoFile, snap2, fs) := by
    intro snap2 v2 h2 hf2
    have hfe : fileExists fs "" = false := by simp [fileExists, hempty]
    simp [rotate, h2, ht, rotateRun, hf2, hempty, hffnone, hfe]
  exact ⟨rfl, key snap v hv hfile, key⟩

/-- Witness for C10: a processing job with unassigned paths reaches
the unhandled delete error at angle 90. -/
theorem C10_rotate_no_status_guard_witness :
    rotate ffNoneW (some [("a", jobEmptyW)]) fs8W "a" "90" =
      (some RotErr.removeNoFile, some [("a", jobEmptyW)], fs8W) :=
  (C10_rotate_no_status_guard ffNoneW (some [("a", jobEmptyW)]) fs8W "a" "90"
    "transpose=1" jobEmptyW (by decide) (by decide) (by decide) (by decide)
    (by decide)).2.1

/-- Claim C8: a successful rotate (id present, valid angle, artifact
existing, transcode producing output at the distinct and previously
absent output path) returns no error, leaves the store snapshot
exactly as it was (rotate never saves), keeps the directory map
unchanged, and its only file effect is replacing the content at the
artifact path itself: the artifact path now holds the transcoded
content and every other path is untouched. -/
theorem C8_rotate_frame (ff : String → Option Nat → Option Nat)
    (snap : Option Db) (fs : FS) (id angle : String) (v : Job) (t : String)
    (c : Nat)
    (hv : lookupA (loadDb snap) id = some v)
    (ht : transposeMap angle = some t)
    (hff : ff t (getFile fs v.file) = some c)
    (hexist : fileExists fs v.file = true)
    (hneq : rotateOutput v.file ≠ v.file)
    (hout : getFile fs (rotateOutput v.file) = none) :
    (rotate ff snap fs id angle).1 = none ∧
    (rotate ff snap fs id angle).2.1 = snap ∧
    getFile (rotate ff snap fs id angle).2.2 v.file = some c ∧
    (∀ p : String, p ≠ v.file →
        getFile (rotate ff snap fs id angle).2.2 p = getFile fs p) ∧
    (rotate ff snap fs id angle).2.2.dirs = fs.dirs := by
  have hinout : v.file ≠ rotateOutput v.file := Ne.symm hneq
  have hfs1get : getFile (writeFile fs (rotateOutput v.file) c) v.file =
      getFile fs v.file := by
    simp only [getFile, writeFile]
    exact lookupA_setA_ne _ _ _ _ hinout
  have hcond1 : fileExists (writeFile fs (rotateOutput v.file) c)
      v.file = true := by
    unfold fileExists
    rw [hfs1get]
    exact hexist
  have hget2 : getFile (removeFile (writeFile fs (rotateOutput v.file) c)
      v.file) (rotateOutput v.file) = some c := by
    simp only [getFile, removeFile, writeFile]
    rw [lookupA_eraseA_ne _ _ _ hneq, lookupA_setA_self]
  have hcond2 : fileExists (removeFile (writeFile fs (rotateOutput v.file) c)
      v.file) (rotateOutput v.file) = true := by
    unfold fileExists
    rw [hget2]
    rfl
  have hrot : rotate ff snap fs id angle =
      (none, snap,
        renameFile (removeFile (writeFile fs (rotateOutput v.file) c) v.file)
          (rotateOutput v.file) v.file) := by
    simp [rotate, hv, ht, rotateRun, hff, hcond1, hcond2]
  have hfs3 : rotate ff snap fs id angle =
      (none, snap,
        { files := setA (eraseA (eraseA (setA fs.files (rotateOutput v.file) c)
            v.file) (rotateOutput v.file)) v.file c,
          dirs := fs.dirs }) := by
    rw [hrot]
    unfold renameFile
    rw [hget2]
    simp [removeFile, writeFile]
  refine ⟨by rw [hfs3], by rw [hfs3], ?_, ?_, by rw [hfs3]⟩
  · rw [hfs3]
    simp only [getFile]
    exact lookupA_setA_self _ _ _
  · intro p hp
    rw [hfs3]
    simp only [getFile]
    rw [lookupA_setA_ne _ _ _ _ hp]
    by_cases hpo : p = rotateOutput v.file
    · subst hpo
      rw [lookupA_eraseA_self]
      have hout2 : lookupA fs.files (rotateOutput v.file) = none := hout
      rw [hout2]
    · rw [lookupA_eraseA_ne _ _ _ hpo, lookupA_eraseA_ne _ _ _ hp,
        lookupA_setA_ne _ _ _ _ hpo]

/-- Witness for C8: rotating the concrete ready job at angle 90
replaces the artifact content in place and touches nothing else. -/
theorem C8_rotate_frame_witness :
    getFile (rotate ffSuccW (some [("a", jobReadyW)]) fs8W "a" "90").2.2
      "downloads/a.mp4" = some 8 ∧
    (rotate ffSuccW (some [("a", jobReadyW)]) fs8W "a" "90").2.1 =
      some [("a", jobReadyW)] := by
  have hc := C8_rotate_frame ffSuccW (some [("a", jobReadyW)]) fs8W "a" "90"
    jobReadyW "transpose=1" 8 (by decide) (by decide) (by decide) (by decide)
    (by decide) (by decide)
  exact ⟨hc.2.2.1, hc.2.1⟩
